import Mathlib

/-!
Verification of the QuickBugs automated-program-repair (APR) core.

This file is a shallow embedding of the repair pipeline found in
`agent_graph.py` and `tools.py`:

* strings are modelled as `List Char` (`Str`); the Python `str.strip`,
  `str.lower`, `str.upper`, `in`, `splitlines`, `readlines`,
  `split('\n')` are modelled character-by-character over the ASCII
  fragment actually exercised by the program;
* the defect localizer (`extract_error_line_number`,
  `identify_error_type`, `CodeAnalysisTool.get_function_context`),
  the response sanitizer of `generate_patch_node`, the patch applier
  (`ApplyPatchTool.__call__`) and the test-output normalisation of
  `RunTestsTool.__call__` are embedded as executable functions;
* the LangGraph workflow of `create_apr_graph` is embedded as an explicit
  step function on `Node × APRState`; the external collaborators (file
  system, test harness, LLM) are oracles collected in an `Env` record.
  The LLM response is modelled as a function of the attempt counter,
  abstracting the prompt string (prompt construction in the source is a
  total pure computation whose result is only passed to the oracle).
-/

deriving instance DecidableEq for Except

/-- Python strings, modelled as lists of characters. -/
abbrev Str := List Char

/-- Characters treated as whitespace by the Python `str.strip` /
`str.lstrip` (ASCII fragment): space, tab, newline, carriage return,
vertical tab, form feed. -/
def pyIsSpace (c : Char) : Bool :=
  (c == ' ') || (c == '\t') || (c == '\n') || (c == Char.ofNat 13) ||
  (c == Char.ofNat 11) || (c == Char.ofNat 12)

/-- Python `str.lstrip()`. -/
def pyLstrip (l : Str) : Str := l.dropWhile pyIsSpace

/-- Python `str.rstrip()`. -/
def pyRstrip (l : Str) : Str := (l.reverse.dropWhile pyIsSpace).reverse

/-- Python `str.strip()`. -/
def pyStrip (l : Str) : Str := pyRstrip (pyLstrip l)

/-- Python `str.lower()` (ASCII). -/
def lowerStr (l : Str) : Str := l.map Char.toLower

/-- Python `str.upper()` (ASCII). -/
def upperStr (l : Str) : Str := l.map Char.toUpper

/-- Python substring test `needle in hay`. -/
def containsSub (needle : Str) : Str → Bool
  | [] => needle.isEmpty
  | c :: rest => needle.isPrefixOf (c :: rest) || containsSub needle rest

/-- Pass/fail derivation used by `localize_defect_node` and
`validate_patch_node`:
checking that the uppercased output contains neither `FAIL` nor `ERROR`. -/
def testsPassed (out : Str) : Bool :=
  !(containsSub ("FAIL").data (upperStr out)) &&
  !(containsSub ("ERROR").data (upperStr out))

/-- Helper for `pySplitlines`: accumulates the current line (reversed). -/
def pySplitlinesAux : Str → Str → List Str
  | [], [] => []
  | [], acc => [acc.reverse]
  | '\n' :: r, acc => acc.reverse :: pySplitlinesAux r []
  | c :: r, acc => pySplitlinesAux r (c :: acc)

/-- Python `str.splitlines()` (newline-only model): line terminators are
dropped and there is no trailing empty line. -/
def pySplitlines (s : Str) : List Str := pySplitlinesAux s []

/-- Helper for `pyReadlines`. -/
def pyReadlinesAux : Str → Str → List Str
  | [], [] => []
  | [], acc => [acc.reverse]
  | '\n' :: r, acc => (acc.reverse ++ ['\n']) :: pyReadlinesAux r []
  | c :: r, acc => pyReadlinesAux r (c :: acc)

/-- Python `file.readlines()`: splits after each newline, keeping the
terminator; a final fragment without a terminator is kept as-is. -/
def pyReadlines (s : Str) : List Str := pyReadlinesAux s []

/-- Helper for `splitNl`. -/
def splitNlAux : Str → Str → List Str
  | [], acc => [acc.reverse]
  | c :: r, acc =>
    if c = '\n' then acc.reverse :: splitNlAux r []
    else splitNlAux r (c :: acc)

/-- Python `str.split('\n')`: always nonempty, keeps empty fragments. -/
def splitNl (s : Str) : List Str := splitNlAux s []

/-- Concatenation of a list of strings (the join used to rebuild the file). -/
def strJoin : List Str → Str
  | [] => []
  | l :: ls => l ++ strJoin ls

/-- ASCII decimal digit test (`\d` in the patterns, ASCII model). -/
def isDigitC (c : Char) : Bool := (48 ≤ c.toNat) && (c.toNat ≤ 57)

/-- Numeric value of a digit string (Python `int(...)`). -/
def digitsVal (ds : Str) : Nat :=
  ds.foldl (fun acc c => acc * 10 + (c.toNat - 48)) 0

/-- Attempt to match the regex `line (\d+)` (IGNORECASE) at the head of
`l`, returning the captured number. -/
def matchP1At (l : Str) : Option Nat :=
  if lowerStr (l.take 5) = ("line ").data then
    let ds := (l.drop 5).takeWhile isDigitC
    if ds.isEmpty then none else some (digitsVal ds)
  else none

/-- Attempt to match `File "[^"]+", line (\d+)` (IGNORECASE) at the head
of `l`.  The character class `[^"]+` must end at the first quote, so the
match attempt at a fixed position is deterministic. -/
def matchP2At (l : Str) : Option Nat :=
  if lowerStr (l.take 6) = ("file \"").data then
    let m := (l.drop 6).takeWhile (fun c => c != '"')
    if m.isEmpty then none
    else
      let r2 := (l.drop 6).drop m.length
      if r2.take 3 = ("\", ").data ∧ lowerStr ((r2.drop 3).take 5) = ("line ").data then
        let ds := (r2.drop 8).takeWhile isDigitC
        if ds.isEmpty then none else some (digitsVal ds)
      else none
  else none

/-- Attempt to match `Error on line (\d+)` (IGNORECASE) at the head of `l`. -/
def matchP3At (l : Str) : Option Nat :=
  if lowerStr (l.take 14) = ("error on line ").data then
    let ds := (l.drop 14).takeWhile isDigitC
    if ds.isEmpty then none else some (digitsVal ds)
  else none

/-- Attempt to match `at line (\d+)` (IGNORECASE) at the head of `l`. -/
def matchP4At (l : Str) : Option Nat :=
  if lowerStr (l.take 8) = ("at line ").data then
    let ds := (l.drop 8).takeWhile isDigitC
    if ds.isEmpty then none else some (digitsVal ds)
  else none

/-- Attempt to match `Line (\d+):` (IGNORECASE) at the head of `l`:
greedy `\d+` then a literal colon. -/
def matchP5At (l : Str) : Option Nat :=
  if lowerStr (l.take 5) = ("line ").data then
    let ds := (l.drop 5).takeWhile isDigitC
    if ds.isEmpty then none
    else if ((l.drop 5).drop ds.length).take 1 = [':'] then some (digitsVal ds)
    else none
  else none

/-- Model of `re.search` for a positional matcher: leftmost match wins. -/
def searchWith (m : Str → Option Nat) : Str → Option Nat
  | [] => m []
  | l@(_ :: rest) =>
    match m l with
    | some n => some n
    | none => searchWith m rest

/-- Embeds `extract_error_line_number` (agent_graph.py): tries the five
patterns in source order, returning the captured group of the first matching pattern;
defaults to line 1. -/
def extract_error_line_number (t : Str) : Nat :=
  match searchWith matchP1At t with
  | some n => n
  | none =>
    match searchWith matchP2At t with
    | some n => n
    | none =>
      match searchWith matchP3At t with
      | some n => n
      | none =>
        match searchWith matchP4At t with
        | some n => n
        | none =>
          match searchWith matchP5At t with
          | some n => n
          | none => 1

/-- Embeds `identify_error_type` (agent_graph.py): case-insensitive keyword
scan in source order. -/
def identify_error_type (t : Str) : Str :=
  let low := lowerStr t
  if containsSub ("indexerror").data low then
    ("Index Error (likely off-by-one or boundary issue)").data
  else if containsSub ("keyerror").data low then
    ("Key Error (missing dictionary key)").data
  else if containsSub ("typeerror").data low then
    ("Type Error (incorrect data type usage)").data
  else if containsSub ("valueerror").data low then
    ("Value Error (invalid value)").data
  else if containsSub ("nameerror").data low then
    ("Name Error (undefined variable)").data
  else if containsSub ("assertion").data low then
    ("Logic Error (incorrect algorithm behavior)").data
  else if containsSub ("infinite").data low || containsSub ("timeout").data low then
    ("Infinite Loop or Performance Issue").data
  else
    ("General Error").data

/-- The keyword priority list of `identify_error_type`, as data:
spec-side rendering of "first matching keyword in priority order". -/
def errorCategories : List (List Str × Str) :=
  [ ([("indexerror").data], ("Index Error (likely off-by-one or boundary issue)").data),
    ([("keyerror").data], ("Key Error (missing dictionary key)").data),
    ([("typeerror").data], ("Type Error (incorrect data type usage)").data),
    ([("valueerror").data], ("Value Error (invalid value)").data),
    ([("nameerror").data], ("Name Error (undefined variable)").data),
    ([("assertion").data], ("Logic Error (incorrect algorithm behavior)").data),
    ([("infinite").data, ("timeout").data], ("Infinite Loop or Performance Issue").data) ]

/-- Spec-side classifier: the category of the first entry in the
priority list one of whose keywords occurs in the lowercased text, with
a generic fallback. -/
def firstCategory (low : Str) : List (List Str × Str) → Str
  | [] => ("General Error").data
  | (kws, cat) :: rest =>
    if kws.any (fun k => containsSub k low) then cat else firstCategory low rest

/-- The structured diagnosis dictionary built by
`CodeAnalysisTool.get_function_context`. -/
structure FunctionContext where
  function_name : Option Str
  function_start_line : Option Nat
  error_line : Nat
  context_lines : List Str
  context_start_line : Nat
deriving DecidableEq

/-- Python replace of every (non-overlapping, left-to-right)
occurrence of the four characters d, e, f, space by nothing. -/
def pyReplaceDef : Str → Str
  | [] => []
  | 'd' :: 'e' :: 'f' :: ' ' :: rest => pyReplaceDef rest
  | c :: rest => c :: pyReplaceDef rest

/-- Function-name extraction of `get_function_context`:
the part before the first parenthesis, with def-prefixes removed,
stripped. -/
def defNameOf (line : Str) : Str :=
  pyStrip (pyReplaceDef (line.takeWhile (fun c => c != '(')))

/-- The downward scan of `get_function_context`: for `i` from the given
index down to 0, test whether `lines[i].strip()` starts with `"def "`;
return the 1-based start line and the extracted name. -/
def findDefAux (lines : List Str) : Nat → Option (Nat × Str)
  | 0 =>
    let l := pyStrip (lines.getD 0 [])
    if ("def ").data.isPrefixOf l then some (1, defNameOf l) else none
  | i + 1 =>
    let l := pyStrip (lines.getD (i + 1) [])
    if ("def ").data.isPrefixOf l then some (i + 2, defNameOf l)
    else findDefAux lines i

/-- Embeds `CodeAnalysisTool.get_function_context` (tools.py).  The Python body
indexes `lines[line_no - 1]` as the first step of its downward scan, so
a `line_no` past the end of the file raises `IndexError` (caught by the
calling node); this is the `Except.error` branch.  Otherwise it records
the nearest enclosing `def` above `line_no` and a context slice
`lines[max(0, line_no - 5) : min(len(lines), line_no + 5)]` together
with the 1-based start line of that slice. -/
def get_function_context (code : Str) (line_no : Nat) : Except Str FunctionContext :=
  let lines := pySplitlines code
  if 1 ≤ line_no ∧ lines.length ≤ line_no - 1 then
    Except.error ("list index out of range").data
  else
    let found := if line_no = 0 then none else findDefAux lines (line_no - 1)
    let context_start := line_no - 5
    let context_end := min lines.length (line_no + 5)
    Except.ok
      { function_name := found.map (fun p => p.2)
        function_start_line := found.map (fun p => p.1)
        error_line := line_no
        context_lines := (lines.take context_end).drop context_start
        context_start_line := context_start + 1 }

/-- The backtick character. -/
def btick : Char := Char.ofNat 96

/-- The markdown code-fence marker (three backticks). -/
def fenceM : Str := [btick, btick, btick]

/-- Predicate of the fence-branch loop in `generate_patch_node`:
a stripped line that is nonempty and does not start with the fence. -/
def usableLine (l : Str) : Bool :=
  !(pyStrip l).isEmpty && !(fenceM.isPrefixOf (pyStrip l))

/-- Response sanitization of `generate_patch_node` (agent_graph.py):
strip the response; if it contains a code-fence marker, replace it by
the first line (of the whole stripped response) that is non-empty and
does not start with a fence, keeping the stripped response when no such
line exists. -/
def sanitize (resp : Str) : Str :=
  let p := pyStrip resp
  if containsSub fenceM p then
    match (splitNl p).find? usableLine with
    | some l => l
    | none => p
  else p

/-- Spaces of a given width (`' ' * original_indent`). -/
def spacesN (n : Nat) : Str := List.replicate n ' '

/-- Leading-whitespace width of a line
(`len(original_line) - len(original_line.lstrip())`). -/
def indentOf (l : Str) : Nat := l.length - (pyLstrip l).length

/-- Decimal rendering helper for `natToStr`. -/
def natToStrAux : Nat → Nat → Str → Str
  | 0, _, acc => acc
  | f + 1, n, acc =>
    if n = 0 then acc
    else natToStrAux f (n / 10) (Char.ofNat (48 + n % 10) :: acc)

/-- Decimal rendering of a natural number. -/
def natToStr (n : Nat) : Str :=
  if n = 0 then [Char.ofNat 48] else natToStrAux (n + 1) n []

/-- Decimal rendering of an integer (Python f-string `{line_no}`). -/
def intToStr (i : Int) : Str :=
  if i < 0 then '-' :: natToStr i.natAbs else natToStr i.toNat

/-- The `ValueError` message raised by `ApplyPatchTool.__call__` for an
out-of-range line number. -/
def rangeMsg (line_no : Int) (total : Nat) : Str :=
  ("Line number ").data ++ intToStr line_no ++
  (" is out of range (1-").data ++ natToStr total ++ (")").data

/-- Embeds `ApplyPatchTool.__call__` (tools.py) as a pure function from the
current file content to the new file content: read the lines, validate
`1 <= line_no <= len(lines)` (raising the range `ValueError` otherwise,
before any write), re-indent the candidate when it does not already
start with the leading whitespace of the original line, ensure a trailing
newline, and replace the single target line. -/
def apply_patch (content : Str) (line_no : Int) (new_line : Str) : Except Str Str :=
  let lines := pyReadlines content
  if line_no < 1 ∨ line_no > (lines.length : Int) then
    Except.error (rangeMsg line_no lines.length)
  else
    let idx := (line_no - 1).toNat
    let original_line := lines.getD idx []
    let original_indent := indentOf original_line
    let n1 :=
      if !(pyStrip new_line).isEmpty && !((spacesN original_indent).isPrefixOf new_line)
      then spacesN original_indent ++ pyStrip new_line
      else new_line
    let n2 := if n1.getLast? = some '\n' then n1 else n1 ++ ['\n']
    Except.ok (strJoin (lines.set idx n2))

/-- The on-disk effect of `ApplyPatchTool.__call__`: the write happens
only after the range check, so on the error path the stored file
content is unchanged. -/
def apply_patch_fs (content : Str) (line_no : Int) (new_line : Str) : Str :=
  match apply_patch content line_no new_line with
  | Except.ok r => r
  | Except.error _ => content

/-- Output normalisation of `RunTestsTool.__call__` (tools.py):
`return output if output.strip() else "No test output generated"`. -/
def runTestsNormalize (raw : Str) : Str :=
  if (pyStrip raw).isEmpty then ("No test output generated").data else raw

/-- The `APRState` TypedDict of agent_graph.py. -/
structure APRState where
  file_path : Str
  original_code : Str
  current_code : Str
  error_line_no : Nat
  patch_line : Str
  test_output : Str
  tests_passed : Bool
  attempts : Nat
  max_attempts : Nat
  success : Bool
  error_message : Str
  function_context : Option FunctionContext
deriving DecidableEq

/-- Oracles for the external collaborators of one run: the result of
`LoadCodeTool` (ok text or raised message), the test output of the
initial `localize_defect_node` run, and — indexed by the value of the
`attempts` counter at the moment of the call — the LLM response of
`generate_patch_node`, the result of `ApplyPatchTool` in
`apply_patch_node`, and the test output seen by `validate_patch_node`.
`RunTestsTool` never raises (it catches every exception and returns an
error string), so test outputs are plain strings. -/
structure Env where
  loadRes : Except Str Str
  testOut0 : Str
  gemini : Nat → Except Str Str
  applyRes : Nat → Except Str Str
  testOut : Nat → Str

/-- Embeds `load_code_node`: on success populate `original_code` /
`current_code` and clear `error_message`; on exception record the error
and set `success = False`. -/
def load_code_node (E : Env) (s : APRState) : APRState :=
  match E.loadRes with
  | Except.ok code =>
    { s with original_code := code, current_code := code, error_message := [] }
  | Except.error e =>
    { s with error_message := ("Failed to load code: ").data ++ e, success := false }

/-- Embeds `localize_defect_node`: run the tests, extract the error line, and
compute the function context of `current_code`; the only exception
source is the `lines[i]` access inside `get_function_context` (an
out-of-range `line_no`), in which case the fields are left unchanged
and the error is recorded. -/
def localize_defect_node (E : Env) (s : APRState) : APRState :=
  let t := E.testOut0
  let el := extract_error_line_number t
  match get_function_context s.current_code el with
  | Except.ok fc =>
    { s with test_output := t, error_line_no := el,
             function_context := some fc, tests_passed := testsPassed t }
  | Except.error e =>
    { s with error_message := ("Failed to localize defect: ").data ++ e,
             success := false }

/-- Embeds `generate_patch_node`: prompt construction is total, so the only
exception source is the LLM call; on success the sanitized response
becomes `patch_line` and `attempts` is incremented. -/
def generate_patch_node (E : Env) (s : APRState) : APRState :=
  match E.gemini s.attempts with
  | Except.ok resp =>
    { s with patch_line := sanitize resp, attempts := s.attempts + 1 }
  | Except.error e =>
    { s with error_message := ("Failed to generate patch: ").data ++ e,
             success := false }

/-- Embeds `apply_patch_node`: `ApplyPatchTool` reads and writes the on-disk
file; on success the returned text becomes `current_code`. -/
def apply_patch_node (E : Env) (s : APRState) : APRState :=
  match E.applyRes s.attempts with
  | Except.ok code => { s with current_code := code }
  | Except.error e =>
    { s with error_message := ("Failed to apply patch: ").data ++ e,
             success := false }

/-- Embeds `validate_patch_node`: re-run the tests (never raises) and derive
`tests_passed`. -/
def validate_patch_node (E : Env) (s : APRState) : APRState :=
  let t := E.testOut s.attempts
  { s with test_output := t, tests_passed := testsPassed t }

/-- Embeds `finish_success_node`: the diff tool catches its own failures, so
the node sets `success = True`. -/
def finish_success_node (s : APRState) : APRState := { s with success := true }

/-- Embeds `finish_failure_node`: sets `success = False`. -/
def finish_failure_node (s : APRState) : APRState := { s with success := false }

/-- The three labels returned by `should_continue_repair`. -/
inductive Route
  | generate_patch
  | finish_success
  | finish_failure
deriving DecidableEq

/-- Embeds `should_continue_repair` (agent_graph.py): the conditional edge
evaluated after `validate_patch`. -/
def should_continue_repair (s : APRState) : Route :=
  if s.error_message ≠ [] then Route.finish_failure
  else if s.tests_passed then Route.finish_success
  else if s.attempts ≥ s.max_attempts then Route.finish_failure
  else Route.generate_patch

/-- The nodes of the workflow graph built by `create_apr_graph`, plus a
`done` sink for `END`. -/
inductive Node
  | load
  | localize
  | generate
  | applyN
  | validate
  | succeedN
  | failN
  | done
deriving DecidableEq

/-- Mapping from routing labels to graph nodes (the dictionary of
`add_conditional_edges`). -/
def routeNode : Route → Node
  | Route.generate_patch => Node.generate
  | Route.finish_success => Node.succeedN
  | Route.finish_failure => Node.failN

/-- One transition of the workflow graph of `create_apr_graph`: the
edges `load → localize → generate → apply → validate` are
unconditional; only after `validate` does `should_continue_repair`
choose the next node. -/
def stepFn (E : Env) : Node × APRState → Node × APRState
  | (Node.load, s) => (Node.localize, load_code_node E s)
  | (Node.localize, s) => (Node.generate, localize_defect_node E s)
  | (Node.generate, s) => (Node.applyN, generate_patch_node E s)
  | (Node.applyN, s) => (Node.validate, apply_patch_node E s)
  | (Node.validate, s) =>
    let s' := validate_patch_node E s
    (routeNode (should_continue_repair s'), s')
  | (Node.succeedN, s) => (Node.done, finish_success_node s)
  | (Node.failN, s) => (Node.done, finish_failure_node s)
  | (Node.done, s) => (Node.done, s)

/-- Iterated execution of the workflow graph. -/
def stepsN (E : Env) : Nat → Node × APRState → Node × APRState
  | 0, c => c
  | n + 1, c => stepsN E n (stepFn E c)

/-- The initial `APRState` dictionary built in `main()` (and in
result.py), with `max_attempts = 3`. -/
def initState (fp : Str) : APRState :=
  { file_path := fp, original_code := [], current_code := [],
    error_line_no := 0, patch_line := [], test_output := [],
    tests_passed := false, attempts := 0, max_attempts := 3,
    success := false, error_message := [], function_context := none }

/-- An environment in which every external call succeeds: the load
returns `code`, the LLM returns `g k` and the patch application returns
`a k` at attempt counter `k`, and the test runs return `t0` initially
and `t k` after the `k`-th generated patch. -/
def mkEnv (code t0 : Str) (g a t : Nat → Str) : Env :=
  { loadRes := Except.ok code, testOut0 := t0,
    gemini := fun k => Except.ok (g k),
    applyRes := fun k => Except.ok (a k),
    testOut := t }

/-- Invariant used for the attempt bound: `max_attempts` is pinned at 3,
`attempts` never exceeds it, `attempts` is still 0 before the first
`generate_patch`, and the machine only sits at `generate_patch` with
budget remaining. -/
def InvA (c : Node × APRState) : Prop :=
  c.2.max_attempts = 3 ∧ c.2.attempts ≤ 3 ∧
  ((c.1 = Node.load ∨ c.1 = Node.localize) → c.2.attempts = 0) ∧
  (c.1 = Node.generate → c.2.attempts < 3)

/-- A run whose load fails (missing file) but whose LLM call succeeds:
the test harness keeps reporting that it cannot run, and the patch
application fails on the missing file. -/
def envC1 : Env :=
  { loadRes := Except.error ("Could not find file: python_programs/gcd.py").data,
    testOut0 := ("Tests could not be run - tester script missing").data,
    gemini := fun _ => Except.ok ("x = 1").data,
    applyRes := fun _ => Except.error ("No such file or directory").data,
    testOut := fun _ => ("Tests could not be run - tester script missing").data }

/-- Source file used in the concrete machine runs. -/
def codeW : Str := ("def f():\n    return n\n").data

/-- Initial failing test output used in the concrete machine runs. -/
def t0W : Str := ("FAIL: expected 2 at line 2").data

/-- The function context computed for `codeW` at line 2. -/
def fcW : FunctionContext :=
  { function_name := some ("f").data, function_start_line := some 1,
    error_line := 2,
    context_lines := [("def f():").data, ("    return n").data],
    context_start_line := 1 }

/-- Constant LLM response for the concrete machine runs. -/
def gW : Nat → Str := fun _ => ("return n + 1").data

/-- Constant patched file content for the concrete machine runs. -/
def aW : Nat → Str := fun _ => ("def f():\n    return n + 1\n").data

/-- Test outputs that always fail. -/
def tFailW : Nat → Str := fun _ => ("FAIL: expected 2").data

/-- Test outputs that always pass. -/
def tPassW : Nat → Str := fun _ => ("All 5 tests passed").data

/-- A 12-line source text used for the context-window counterexample. -/
def c8code : Str := ("l1\nl2\nl3\nl4\nl5\nl6\nl7\nl8\nl9\nl10\nl11\nl12").data

/-- Projection: the reported context start line of a
`get_function_context` result (0 on error). -/
def fcStartOf : Except Str FunctionContext → Nat
  | Except.ok fc => fc.context_start_line
  | Except.error _ => 0

/-- Projection: the number of context lines of a `get_function_context`
result (0 on error). -/
def fcLinesLen : Except Str FunctionContext → Nat
  | Except.ok fc => fc.context_lines.length
  | Except.error _ => 0

/-- A multi-line LLM response without code fences. -/
def c9resp1 : Str := ("x = 1\ny = 2").data

/-- An LLM response whose first usable line precedes the fenced block. -/
def c9resp2 : Str :=
  ("use this:\n").data ++ fenceM ++ ("python\nx = 1\n").data ++ fenceM

/-! ## Theorems -/

/-- Claim C4: for every source text and every `line_no` outside
`[1, total_lines]`, `ApplyPatchTool.__call__` fails with the range
`ValueError` and performs no file mutation (the write happens only
after the range check). -/
theorem c4_apply_out_of_range (content : Str) (line_no : Int) (new_line : Str)
    (h : line_no < 1 ∨ line_no > ((pyReadlines content).length : Int)) :
    apply_patch content line_no new_line
      = Except.error (rangeMsg line_no (pyReadlines content).length) ∧
    apply_patch_fs content line_no new_line = content := by
  have h1 : apply_patch content line_no new_line
      = Except.error (rangeMsg line_no (pyReadlines content).length) := by
    unfold apply_patch
    rw [if_pos h]
  refine ⟨h1, ?_⟩
  unfold apply_patch_fs
  rw [h1]

/-- Witness for C4: `line_no = 5` on a one-line file is rejected and the
stored content is unchanged. -/
theorem c4_apply_out_of_range_witness :
    ((5 : Int) < 1 ∨ (5 : Int) > ((pyReadlines ("a\n").data).length : Int)) ∧
    (apply_patch ("a\n").data 5 ("x").data
        = Except.error (rangeMsg 5 (pyReadlines ("a\n").data).length) ∧
      apply_patch_fs ("a\n").data 5 ("x").data = ("a\n").data) :=
  ⟨by decide, c4_apply_out_of_range (("a\n").data) 5 (("x").data) (by decide)⟩

/-- Claim C10: an empty or whitespace-only test-harness output is
normalised to the placeholder `"No test output generated"`, which
contains neither `FAIL` nor `ERROR`, so the downstream derivation sets
`tests_passed` to `true`. -/
theorem c10_empty_output_passes (raw : Str) (h : pyStrip raw = []) :
    runTestsNormalize raw = ("No test output generated").data ∧
    testsPassed (runTestsNormalize raw) = true := by
  have hn : runTestsNormalize raw = ("No test output generated").data := by
    unfold runTestsNormalize
    rw [if_pos (by rw [h]; rfl)]
  refine ⟨hn, ?_⟩
  rw [hn]
  decide

/-- Witness for C10 at the whitespace-only output `"  \n"`. -/
theorem c10_empty_output_passes_witness :
    pyStrip ("  \n").data = [] ∧
    (runTestsNormalize ("  \n").data = ("No test output generated").data ∧
      testsPassed (runTestsNormalize ("  \n").data) = true) :=
  ⟨by decide, c10_empty_output_passes (("  \n").data) (by decide)⟩

/-- Claim C7: `identify_error_type` returns the category of the first
matching keyword in the priority order index, key, type, value, name,
assertion, infinite/timeout, with the generic category when none match;
in particular a text containing both `KeyError` and `AssertionError`
classifies as the key-error category. -/
theorem c7_classify_priority :
    (∀ t, identify_error_type t = firstCategory (lowerStr t) errorCategories) ∧
    identify_error_type ("KeyError: 'k' and AssertionError in test").data
      = ("Key Error (missing dictionary key)").data := by
  constructor
  · intro t
    simp only [identify_error_type, firstCategory, errorCategories,
      List.any_cons, List.any_nil, Bool.or_false]
  · decide

/-- Counterexample for C5: applying the candidate `"y=3 "` (no leading
whitespace, but a trailing blank) at line 1 of `"x=2\n"` (indentation
width `W = 0`) stores `"y=3 \n"`, which is not `W` spaces followed by
the trimmed candidate `"y=3"` and one terminator. -/
theorem c5_counterexample :
    apply_patch ("x=2\n").data 1 ("y=3 ").data = Except.ok ("y=3 \n").data ∧
    ("y=3 \n").data ≠
      spacesN (indentOf (("x=2\n").data)) ++ pyStrip (("y=3 ").data) ++ ['\n'] := by
  decide

/-- Counterexample for C6: on `"line 2 Error on line 5"` the specific
pattern `Error on line (\d+)` matches with 5, but the code returns 2
because the generic pattern `line (\d+)` is tried first — so "more
specific patterns tried before generic ones" is false of the code. -/
theorem c6_counterexample :
    extract_error_line_number ("line 2 Error on line 5").data = 2 ∧
    searchWith matchP3At ("line 2 Error on line 5").data = some 5 ∧
    (2 : Nat) ≠ 5 := by
  decide

/-- Counterexample for C8: for `line_no = 7` in a 12-line file the claim
predicts the window lines 2..12 (11 lines, reported start 2 = 7 - 5);
the code reports start line 3 and a 10-line window (lines 3..12). -/
theorem c8_counterexample :
    fcStartOf (get_function_context c8code 7) = 3 ∧ (3 : Nat) ≠ 7 - 5 ∧
    fcLinesLen (get_function_context c8code 7) = 10 ∧ (10 : Nat) ≠ 11 := by
  decide

/-- Counterexample for C9: a fence-free multi-line response is stored
as-is, so the stored `patch_line` is not a single line; and in a fenced
response the first usable line is taken from anywhere in the response,
here `"use this:"`, which lies before the fenced block rather than
inside it (the first usable line inside the block is `"x = 1"`). -/
theorem c9_counterexample :
    sanitize c9resp1 = c9resp1 ∧ '\n' ∈ sanitize c9resp1 ∧
    sanitize c9resp2 = ("use this:").data ∧
    ("use this:").data ≠ ("x = 1").data := by
  decide

/-- Counterexample for C1: with a failing load but a succeeding LLM
call, the graph still executes Localize, Generate, Apply and Validate
(the edges are unconditional), `attempts` is incremented to 1 by
`generate_patch_node`, and the run ends in Failure with
`attempts = 1 ≠ 0`. -/
theorem c1_counterexample :
    (stepsN envC1 6 (Node.load, initState ("gcd.py").data)).1 = Node.done ∧
    (stepsN envC1 6 (Node.load, initState ("gcd.py").data)).2.success = false ∧
    (stepsN envC1 6 (Node.load, initState ("gcd.py").data)).2.attempts = 1 := by
  decide

/-- A list whose head is not whitespace is unchanged by `lstrip`. -/
theorem lstrip_eq_self {l : Str}
    (h : ∀ c, l.head? = some c → pyIsSpace c = false) : pyLstrip l = l := by
  unfold pyLstrip
  cases l with
  | nil => rfl
  | cons c cs =>
    rw [List.dropWhile_cons, h c rfl]
    simp

/-- A list whose last element is not whitespace is unchanged by `rstrip`. -/
theorem rstrip_eq_self {l : Str}
    (h : ∀ c, l.getLast? = some c → pyIsSpace c = false) : pyRstrip l = l := by
  unfold pyRstrip
  cases hr : l.reverse with
  | nil =>
    rw [List.reverse_eq_nil_iff] at hr
    subst hr
    rfl
  | cons c cs =>
    have hc : l.getLast? = some c := by
      rw [← List.head?_reverse, hr]
      rfl
    rw [List.dropWhile_cons, h c hc]
    simp only [Bool.false_eq_true, if_false]
    rw [← hr, List.reverse_reverse]

/-- A list clean of leading and trailing whitespace is unchanged by
Python `strip`. -/
theorem strip_eq_self {l : Str}
    (h1 : ∀ c, l.head? = some c → pyIsSpace c = false)
    (h2 : ∀ c, l.getLast? = some c → pyIsSpace c = false) : pyStrip l = l := by
  unfold pyStrip
  rw [lstrip_eq_self h1, rstrip_eq_self h2]

/-- Reading with `getD` after a `drop` shifts the index. -/
theorem getD_drop' {α : Type} (l : List α) (n : Nat) (i : Nat) (d : α) :
    (l.drop n).getD i d = l.getD (n + i) d := by
  induction n generalizing l with
  | zero => simp
  | succ k ih =>
    cases l with
    | nil => simp [List.getD]
    | cons x xs =>
      rw [List.drop_succ_cons, ih xs]
      have h : k + 1 + i = (k + i) + 1 := by omega
      rw [h, List.getD_cons_succ]

/-- Reading with `getD` inside the kept range of a `take` is unchanged. -/
theorem getD_take' {α : Type} (l : List α) (n : Nat) (i : Nat) (d : α)
    (h : i < n) : (l.take n).getD i d = l.getD i d := by
  induction l generalizing n i with
  | nil => simp
  | cons x xs ih =>
    cases n with
    | zero => omega
    | succ m =>
      rw [List.take_succ_cons]
      cases i with
      | zero => rfl
      | succ j => rw [List.getD_cons_succ, List.getD_cons_succ, ih _ _ (by omega)]

/-- Claim C5, amended: for a nonempty single-line candidate with no
leading and no trailing whitespace, applied at a valid `line_no` whose
original line has indentation width `W`, the stored line is exactly `W`
spaces, then the candidate (which equals its own trim), then exactly
one line terminator; the other lines are untouched (`List.set`).  (As
stated the claim fails at `W = 0` when the candidate carries trailing
whitespace, and for whitespace-only candidates — see the
counterexample.) -/
theorem c5_amended (content : Str) (line_no : Int) (cand : Str)
    (h1 : 1 ≤ line_no) (h2 : line_no ≤ ((pyReadlines content).length : Int))
    (hne : cand ≠ []) (hnl : '\n' ∉ cand)
    (hh : pyIsSpace (cand.headD ' ') = false)
    (hl : pyIsSpace (cand.getLastD ' ') = false) :
    apply_patch content line_no cand
      = Except.ok (strJoin ((pyReadlines content).set (line_no - 1).toNat
          (spacesN (indentOf ((pyReadlines content).getD (line_no - 1).toNat []))
            ++ cand ++ ['\n']))) ∧
    (spacesN (indentOf ((pyReadlines content).getD (line_no - 1).toNat []))
      ++ cand ++ ['\n']).count '\n' = 1 := by
  obtain ⟨c, cs, rfl⟩ : ∃ c cs, cand = c :: cs := by
    cases cand with
    | nil => exact absurd rfl hne
    | cons c cs => exact ⟨c, cs, rfl⟩
  have hh' : pyIsSpace c = false := hh
  have hhead : ∀ d, (c :: cs).head? = some d → pyIsSpace d = false := by
    intro d hd
    rw [List.head?_cons] at hd
    cases hd
    exact hh'
  have hlast : ∀ d, (c :: cs).getLast? = some d → pyIsSpace d = false := by
    intro d hd
    have he := List.getLastD_eq_getLast? ' ' (c :: cs)
    rw [hd] at he
    simp only [Option.getD_some] at he
    rw [he] at hl
    exact hl
  have hstrip : pyStrip (c :: cs) = c :: cs := strip_eq_self hhead hlast
  have hlastnl : ¬((c :: cs).getLast? = some '\n') := by
    intro hcon
    have := hlast '\n' hcon
    simp [pyIsSpace] at this
  have hguard : ¬(line_no < 1 ∨ line_no > ((pyReadlines content).length : Int)) := by
    omega
  have hcount : (spacesN (indentOf ((pyReadlines content).getD (line_no - 1).toNat []))
      ++ (c :: cs) ++ ['\n']).count '\n' = 1 := by
    rw [List.count_append, List.count_append]
    have k1 : (spacesN (indentOf ((pyReadlines content).getD (line_no - 1).toNat []))).count '\n' = 0 := by
      unfold spacesN
      rw [List.count_replicate]
      simp
    have k2 : (c :: cs).count '\n' = 0 := List.count_eq_zero.mpr hnl
    rw [k1, k2, List.count_singleton]
    simp
  refine ⟨?_, hcount⟩
  simp only [apply_patch]
  rw [if_neg hguard, hstrip]
  cases hW : indentOf ((pyReadlines content).getD (line_no - 1).toNat []) with
  | zero =>
    have hp0 : (spacesN 0).isPrefixOf (c :: cs) = true := rfl
    rw [hp0]
    simp only [Bool.not_true, Bool.and_false, Bool.false_eq_true, if_false]
    rw [if_neg hlastnl]
    simp [spacesN]
  | succ k =>
    have hps : (spacesN (k + 1)).isPrefixOf (c :: cs) = false := by
      unfold spacesN
      rw [List.replicate_succ, List.isPrefixOf_cons₂]
      have : (' ' == c) = false := by
        cases hcc : (' ' == c) with
        | false => rfl
        | true =>
          have : ' ' = c := by exact eq_of_beq hcc
          rw [← this] at hh'
          simp [pyIsSpace] at hh'
      rw [this]
      rfl
    rw [hps]
    have hmt : (c :: cs).isEmpty = false := rfl
    rw [hmt]
    simp only [Bool.not_false, Bool.and_true, if_true]
    have hlast2 : ¬((spacesN (k + 1) ++ (c :: cs)).getLast? = some '\n') := by
      rw [List.getLast?_append_of_ne_nil _ (by simp)]
      exact hlastnl
    rw [if_neg hlast2]

/-- Witness for the amended C5: replacing line 2 of a two-line function
with the unindented candidate `"return 2"` re-indents to 4 spaces with a
single terminator. -/
theorem c5_amended_witness :
    apply_patch ("def f():\n    return 1\n").data 2 ("return 2").data
      = Except.ok (strJoin ((pyReadlines ("def f():\n    return 1\n").data).set ((2 : Int) - 1).toNat
          (spacesN (indentOf ((pyReadlines ("def f():\n    return 1\n").data).getD ((2 : Int) - 1).toNat []))
            ++ ("return 2").data ++ ['\n']))) ∧
    (spacesN (indentOf ((pyReadlines ("def f():\n    return 1\n").data).getD ((2 : Int) - 1).toNat []))
      ++ ("return 2").data ++ ['\n']).count '\n' = 1 :=
  c5_amended (("def f():\n    return 1\n").data) 2 (("return 2").data)
    (by decide) (by decide) (by decide) (by decide) (by decide) (by decide)

/-- Claim C8, amended: for every `line_no` within the file,
`get_function_context` succeeds and computes the window
`lines[line_no - 5 : min(total, line_no + 5)]` in 0-based slice terms —
i.e. the 1-based lines `max(1, line_no - 4)` through
`min(total, line_no + 5)`, a radius of 4 above and 5 below rather than
the claimed symmetric ±5 — and reports the 1-based start line of
that window.  (The claimed window `line_no - 5 .. line_no + 5` is off by one
at the top: see the counterexample.) -/
theorem c8_amended (code : Str) (line_no : Nat)
    (h1 : 1 ≤ line_no) (h2 : line_no ≤ (pySplitlines code).length) :
    ∃ fc, get_function_context code line_no = Except.ok fc ∧
      fc.context_start_line = max 1 (line_no - 4) ∧
      fc.context_lines.length
        = min (pySplitlines code).length (line_no + 5) - (line_no - 5) ∧
      ∀ j, j < fc.context_lines.length →
        fc.context_lines.getD j [] = (pySplitlines code).getD (line_no - 5 + j) [] := by
  have hguard : ¬(1 ≤ line_no ∧ (pySplitlines code).length ≤ line_no - 1) := by
    omega
  unfold get_function_context
  rw [if_neg hguard]
  refine ⟨_, rfl, ?_, ?_, ?_⟩
  · show line_no - 5 + 1 = max 1 (line_no - 4)
    omega
  · show (((pySplitlines code).take (min (pySplitlines code).length (line_no + 5))).drop (line_no - 5)).length
        = min (pySplitlines code).length (line_no + 5) - (line_no - 5)
    rw [List.length_drop, List.length_take]
    omega
  · intro j hj
    show (((pySplitlines code).take (min (pySplitlines code).length (line_no + 5))).drop (line_no - 5)).getD j []
        = (pySplitlines code).getD (line_no - 5 + j) []
    have hlen : (((pySplitlines code).take (min (pySplitlines code).length (line_no + 5))).drop (line_no - 5)).length
        = min (pySplitlines code).length (line_no + 5) - (line_no - 5) := by
      rw [List.length_drop, List.length_take]
      omega
    rw [hlen] at hj
    rw [getD_drop', getD_take' _ _ _ _ (by omega)]

/-- Witness for the amended C8 at line 7 of a 12-line file: window
lines 3..12, reported start line 3 = max 1 (7 - 4). -/
theorem c8_amended_witness :
    ∃ fc, get_function_context c8code 7 = Except.ok fc ∧
      fc.context_start_line = max 1 (7 - 4) ∧
      fc.context_lines.length
        = min (pySplitlines c8code).length (7 + 5) - (7 - 5) ∧
      ∀ j, j < fc.context_lines.length →
        fc.context_lines.getD j [] = (pySplitlines c8code).getD (7 - 5 + j) [] :=
  c8_amended c8code 7 (by decide) (by decide)

/-- If a positional search fails, the matcher fails at every offset. -/
theorem searchWith_none (m : Str → Option Nat) :
    ∀ t, searchWith m t = none → ∀ k, m (t.drop k) = none := by
  intro t
  induction t with
  | nil =>
    intro h k
    rw [List.drop_nil]
    simpa [searchWith] using h
  | cons c r ih =>
    intro h k
    have hp : m (c :: r) = none ∧ searchWith m r = none := by
      cases hm : m (c :: r) with
      | some n => simp [searchWith, hm] at h
      | none => exact ⟨rfl, by simpa [searchWith, hm] using h⟩
    cases k with
    | zero => exact hp.1
    | succ k' =>
      rw [List.drop_succ_cons]
      exact ih hp.2 k'

/-- If a positional search succeeds, the matcher succeeds at some offset. -/
theorem searchWith_some (m : Str → Option Nat) :
    ∀ t n, searchWith m t = some n → ∃ k, m (t.drop k) = some n := by
  intro t
  induction t with
  | nil =>
    intro n h
    exact ⟨0, by simpa [searchWith] using h⟩
  | cons c r ih =>
    intro n h
    cases hm : m (c :: r) with
    | some n' =>
      have hn : n' = n := by simpa [searchWith, hm] using h
      exact ⟨0, by rw [List.drop_zero, hm, hn]⟩
    | none =>
      obtain ⟨k, hk⟩ := ih n (by simpa [searchWith, hm] using h)
      exact ⟨k + 1, by rw [List.drop_succ_cons]; exact hk⟩

/-- A successful `Line (\d+):` match is also a `line (\d+)` match at the
same position. -/
theorem matchP5_imp_p1 {l : Str} {n : Nat} (h : matchP5At l = some n) :
    matchP1At l ≠ none := by
  simp only [matchP5At] at h
  by_cases hA : lowerStr (l.take 5) = ("line ").data
  · rw [if_pos hA] at h
    by_cases hds : ((l.drop 5).takeWhile isDigitC).isEmpty = true
    · rw [if_pos hds] at h
      exact absurd h (by simp)
    · simp only [matchP1At]
      rw [if_pos hA, if_neg hds]
      simp
  · rw [if_neg hA] at h
    exact absurd h (by simp)

/-- A successful `Error on line (\d+)` match at a position is a
`line (\d+)` match 9 characters later. -/
theorem matchP3_imp_p1 {l : Str} {n : Nat} (h : matchP3At l = some n) :
    matchP1At (l.drop 9) ≠ none := by
  simp only [matchP3At] at h
  by_cases hA : lowerStr (l.take 14) = ("error on line ").data
  · rw [if_pos hA] at h
    by_cases hds : ((l.drop 14).takeWhile isDigitC).isEmpty = true
    · rw [if_pos hds] at h
      exact absurd h (by simp)
    · have hpre : lowerStr ((l.drop 9).take 5) = ("line ").data := by
        unfold lowerStr
        rw [List.take_drop, show (9 + 5 : Nat) = 14 from rfl, List.map_drop]
        have hA' : List.map Char.toLower (l.take 14) = ("error on line ").data := hA
        rw [hA']
        rfl
      have hds9 : ((l.drop 9).drop 5).takeWhile isDigitC
          = (l.drop 14).takeWhile isDigitC := by
        rw [List.drop_drop]
      simp only [matchP1At]
      rw [if_pos hpre, hds9, if_neg hds]
      simp
  · rw [if_neg hA] at h
    exact absurd h (by simp)

/-- A successful `at line (\d+)` match at a position is a `line (\d+)`
match 3 characters later. -/
theorem matchP4_imp_p1 {l : Str} {n : Nat} (h : matchP4At l = some n) :
    matchP1At (l.drop 3) ≠ none := by
  simp only [matchP4At] at h
  by_cases hA : lowerStr (l.take 8) = ("at line ").data
  · rw [if_pos hA] at h
    by_cases hds : ((l.drop 8).takeWhile isDigitC).isEmpty = true
    · rw [if_pos hds] at h
      exact absurd h (by simp)
    · have hpre : lowerStr ((l.drop 3).take 5) = ("line ").data := by
        unfold lowerStr
        rw [List.take_drop, show (3 + 5 : Nat) = 8 from rfl, List.map_drop]
        have hA' : List.map Char.toLower (l.take 8) = ("at line ").data := hA
        rw [hA']
        rfl
      have hds3 : ((l.drop 3).drop 5).takeWhile isDigitC
          = (l.drop 8).takeWhile isDigitC := by
        rw [List.drop_drop]
      simp only [matchP1At]
      rw [if_pos hpre, hds3, if_neg hds]
      simp
  · rw [if_neg hA] at h
    exact absurd h (by simp)

/-- A successful `File "[^"]+", line (\d+)` match contains a
`line (\d+)` match further along. -/
theorem matchP2_imp_p1 {l : Str} {n : Nat} (h : matchP2At l = some n) :
    ∃ k, matchP1At (l.drop k) ≠ none := by
  simp only [matchP2At] at h
  by_cases hA : lowerStr (l.take 6) = ("file \"").data
  · rw [if_pos hA] at h
    by_cases hm : ((l.drop 6).takeWhile (fun c => c != '"')).isEmpty = true
    · rw [if_pos hm] at h
      exact absurd h (by simp)
    · rw [if_neg hm] at h
      by_cases hBC :
          ((l.drop 6).drop ((l.drop 6).takeWhile (fun c => c != '"')).length).take 3
            = ("\", ").data ∧
          lowerStr ((((l.drop 6).drop ((l.drop 6).takeWhile (fun c => c != '"')).length).drop 3).take 5)
            = ("line ").data
      · rw [if_pos hBC] at h
        by_cases hds :
            ((((l.drop 6).drop ((l.drop 6).takeWhile (fun c => c != '"')).length).drop 8).takeWhile isDigitC).isEmpty = true
        · rw [if_pos hds] at h
          exact absurd h (by simp)
        · refine ⟨6 + ((l.drop 6).takeWhile (fun c => c != '"')).length + 3, ?_⟩
          have hr : l.drop (6 + ((l.drop 6).takeWhile (fun c => c != '"')).length + 3)
              = ((l.drop 6).drop ((l.drop 6).takeWhile (fun c => c != '"')).length).drop 3 := by
            rw [List.drop_drop, List.drop_drop, Nat.add_assoc]
          rw [hr]
          have hds8 : ((((l.drop 6).drop ((l.drop 6).takeWhile (fun c => c != '"')).length).drop 3).drop 5).takeWhile isDigitC
              = (((l.drop 6).drop ((l.drop 6).takeWhile (fun c => c != '"')).length).drop 8).takeWhile isDigitC := by
            rw [List.drop_drop]
          simp only [matchP1At]
          rw [if_pos hBC.2, hds8, if_neg hds]
          simp
      · rw [if_neg hBC] at h
        exact absurd h (by simp)
  · rw [if_neg hA] at h
    exact absurd h (by simp)

/-- Claim C6, amended: `extract_error_line_number` returns the number
captured by the first pattern in the fixed order of the code; that order
places the generic `line (\d+)` pattern first, and the generic pattern
subsumes the four specific ones, so the result is always the leftmost
generic `line N` match, with default 1 when no pattern matches.  (The
claimed specific-before-generic ordering is refuted by the
counterexample.) -/
theorem c6_amended (t : Str) :
    extract_error_line_number t = (searchWith matchP1At t).getD 1 := by
  cases h1 : searchWith matchP1At t with
  | some n => simp [extract_error_line_number, h1]
  | none =>
    have hall : ∀ k, matchP1At (t.drop k) = none := searchWith_none matchP1At t h1
    have h2 : searchWith matchP2At t = none := by
      cases h2 : searchWith matchP2At t with
      | none => rfl
      | some n =>
        obtain ⟨k, hk⟩ := searchWith_some matchP2At t n h2
        obtain ⟨k', hk'⟩ := matchP2_imp_p1 hk
        rw [List.drop_drop] at hk'
        exact absurd (hall (k + k')) hk'
    have h3 : searchWith matchP3At t = none := by
      cases h3 : searchWith matchP3At t with
      | none => rfl
      | some n =>
        obtain ⟨k, hk⟩ := searchWith_some matchP3At t n h3
        have hk' := matchP3_imp_p1 hk
        rw [List.drop_drop] at hk'
        exact absurd (hall (k + 9)) hk'
    have h4 : searchWith matchP4At t = none := by
      cases h4 : searchWith matchP4At t with
      | none => rfl
      | some n =>
        obtain ⟨k, hk⟩ := searchWith_some matchP4At t n h4
        have hk' := matchP4_imp_p1 hk
        rw [List.drop_drop] at hk'
        exact absurd (hall (k + 3)) hk'
    have h5 : searchWith matchP5At t = none := by
      cases h5 : searchWith matchP5At t with
      | none => rfl
      | some n =>
        obtain ⟨k, hk⟩ := searchWith_some matchP5At t n h5
        have hk' := matchP5_imp_p1 hk
        exact absurd (hall k) hk'
    simp [extract_error_line_number, h1, h2, h3, h4, h5]

/-- Characterization of `find?`: a found element is the first element
satisfying the predicate, located at some index. -/
theorem find?_first {α : Type} (p : α → Bool) (d : α) :
    ∀ (l : List α) (x : α), l.find? p = some x →
      ∃ i, i < l.length ∧ l.getD i d = x ∧ p x = true ∧
        ∀ j, j < i → p (l.getD j d) = false := by
  intro l
  induction l with
  | nil =>
    intro x h
    simp [List.find?] at h
  | cons a as ih =>
    intro x h
    cases hp : p a with
    | true =>
      have hx : a = x := by simpa [List.find?_cons, hp] using h
      subst hx
      exact ⟨0, by simp, rfl, hp, by omega⟩
    | false =>
      have h' : as.find? p = some x := by simpa [List.find?_cons, hp] using h
      obtain ⟨i, hi, hg, hpx, hj⟩ := ih x h'
      refine ⟨i + 1, by simpa using hi, by rw [List.getD_cons_succ]; exact hg, hpx, ?_⟩
      intro j hlt
      cases j with
      | zero => exact hp
      | succ j' =>
        rw [List.getD_cons_succ]
        exact hj j' (by omega)

/-- Every fragment produced by `splitNlAux` is newline-free, provided
the accumulator is. -/
theorem splitNlAux_no_nl :
    ∀ (s acc : Str), '\n' ∉ acc → ∀ l ∈ splitNlAux s acc, '\n' ∉ l := by
  intro s
  induction s with
  | nil =>
    intro acc hacc l hl
    simp only [splitNlAux, List.mem_singleton] at hl
    subst hl
    rw [List.mem_reverse]
    exact hacc
  | cons c r ih =>
    intro acc hacc l hl
    by_cases hc : c = '\n'
    · subst hc
      simp only [splitNlAux, if_pos rfl] at hl
      cases hl with
      | head =>
        rw [List.mem_reverse]
        exact hacc
      | tail _ hm => exact ih [] (by simp) l hm
    · simp only [splitNlAux, if_neg hc] at hl
      refine ih (c :: acc) ?_ l hl
      intro hmem
      rw [List.mem_cons] at hmem
      cases hmem with
      | inl he => exact hc he.symm
      | inr hm => exact hacc hm

/-- Every fragment of a Python `split('\n')` is a single line. -/
theorem splitNl_no_newline (s : Str) : ∀ l ∈ splitNl s, '\n' ∉ l :=
  splitNlAux_no_nl s [] (by simp)

/-- Claim C9, amended: without fence markers the stored `patch_line` is
the stripped response as-is (which may span several lines); with fence
markers it is the first non-empty, non-fence line of the whole stripped
response — not necessarily a line inside the fenced block — and that
choice is a single line; if no usable line exists the stripped response
itself is kept.  (The claimed "single line in both cases" and "inside
the fenced block" are refuted by the counterexample.) -/
theorem c9_amended (resp : Str) :
    (containsSub fenceM (pyStrip resp) = false → sanitize resp = pyStrip resp) ∧
    (containsSub fenceM (pyStrip resp) = true →
      ((∃ i, i < (splitNl (pyStrip resp)).length ∧
          sanitize resp = (splitNl (pyStrip resp)).getD i [] ∧
          usableLine (sanitize resp) = true ∧
          (∀ j, j < i → usableLine ((splitNl (pyStrip resp)).getD j []) = false) ∧
          '\n' ∉ sanitize resp) ∨
        ((splitNl (pyStrip resp)).find? usableLine = none ∧
          sanitize resp = pyStrip resp))) := by
  constructor
  · intro hf
    simp [sanitize, hf]
  · intro hf
    cases hfind : (splitNl (pyStrip resp)).find? usableLine with
    | some l =>
      left
      obtain ⟨i, hi, hg, hp, hjs⟩ := find?_first usableLine [] _ l hfind
      have hs : sanitize resp = l := by simp [sanitize, hf, hfind]
      refine ⟨i, hi, by rw [hs]; exact hg.symm, by rw [hs]; exact hp, hjs, ?_⟩
      rw [hs]
      exact splitNl_no_newline (pyStrip resp) l (List.mem_of_find?_eq_some hfind)
    | none =>
      right
      exact ⟨rfl, by simp [sanitize, hf, hfind]⟩

/-- Witness for the amended C9: a fence-free response is stored as its
trimmed text. -/
theorem c9_amended_witness :
    sanitize ("  x = 1  ").data = pyStrip ("  x = 1  ").data :=
  (c9_amended (("  x = 1  ").data)).1 (by decide)

/-- Workflow steps compose. -/
theorem stepsN_add (E : Env) (a b : Nat) (c : Node × APRState) :
    stepsN E (a + b) c = stepsN E a (stepsN E b c) := by
  induction b generalizing c with
  | zero => rfl
  | succ k ih =>
    have h : a + (k + 1) = (a + k) + 1 := by omega
    rw [h]
    show stepsN E (a + k) (stepFn E c) = stepsN E a (stepsN E k (stepFn E c))
    exact ih (stepFn E c)

/-- One full Generate → Apply → Validate cycle in an all-successful
environment: `attempts` is incremented once, the sanitized response of
the current attempt becomes `patch_line`, the patched code and fresh
test output are recorded, and the routing function decides the next
node. -/
theorem loop3 (code t0 : Str) (g a t : Nat → Str) (s : APRState) :
    stepsN (mkEnv code t0 g a t) 3 (Node.generate, s)
      = (routeNode (should_continue_repair
          { s with patch_line := sanitize (g s.attempts),
                   attempts := s.attempts + 1,
                   current_code := a (s.attempts + 1),
                   test_output := t (s.attempts + 1),
                   tests_passed := testsPassed (t (s.attempts + 1)) }),
         { s with patch_line := sanitize (g s.attempts),
                  attempts := s.attempts + 1,
                  current_code := a (s.attempts + 1),
                  test_output := t (s.attempts + 1),
                  tests_passed := testsPassed (t (s.attempts + 1)) }) := rfl

/-- Node `load_code_node` never changes the attempt counter. -/
theorem load_attempts (E : Env) (s : APRState) :
    (load_code_node E s).attempts = s.attempts := by
  unfold load_code_node
  cases E.loadRes <;> rfl

/-- Node `localize_defect_node` never changes the attempt counter. -/
theorem localize_attempts (E : Env) (s : APRState) :
    (localize_defect_node E s).attempts = s.attempts := by
  simp only [localize_defect_node]
  cases get_function_context s.current_code (extract_error_line_number E.testOut0) <;> rfl

/-- Node `localize_defect_node` keeps a nonempty `error_message` nonempty. -/
theorem localize_err (E : Env) (s : APRState) (h : s.error_message ≠ []) :
    (localize_defect_node E s).error_message ≠ [] := by
  simp only [localize_defect_node]
  cases get_function_context s.current_code (extract_error_line_number E.testOut0) with
  | ok fc => exact h
  | error err => simp

/-- Node `generate_patch_node` increments `attempts` exactly when the LLM
call succeeds. -/
theorem generate_attempts (E : Env) (s : APRState) :
    (generate_patch_node E s).attempts
      = s.attempts + (if (E.gemini s.attempts).isOk then 1 else 0) := by
  unfold generate_patch_node
  cases hg : E.gemini s.attempts <;> simp [Except.isOk, Except.toBool]

/-- Node `generate_patch_node` keeps a nonempty `error_message` nonempty. -/
theorem generate_err (E : Env) (s : APRState) (h : s.error_message ≠ []) :
    (generate_patch_node E s).error_message ≠ [] := by
  unfold generate_patch_node
  cases E.gemini s.attempts with
  | ok r => exact h
  | error err => simp

/-- Node `apply_patch_node` never changes the attempt counter. -/
theorem applyN_attempts (E : Env) (s : APRState) :
    (apply_patch_node E s).attempts = s.attempts := by
  unfold apply_patch_node
  cases E.applyRes s.attempts <;> rfl

/-- Node `apply_patch_node` keeps a nonempty `error_message` nonempty. -/
theorem applyN_err (E : Env) (s : APRState) (h : s.error_message ≠ []) :
    (apply_patch_node E s).error_message ≠ [] := by
  unfold apply_patch_node
  cases E.applyRes s.attempts with
  | ok r => exact h
  | error err => simp

/-- The attempt-budget invariant is preserved by every workflow step,
for every environment. -/
theorem invA_step (E : Env) (c : Node × APRState) (h : InvA c) :
    InvA (stepFn E c) := by
  obtain ⟨n, s⟩ := c
  obtain ⟨hmax, hle, h0, hg⟩ := h
  dsimp only at hmax hle h0 hg
  cases n with
  | load =>
    dsimp only [stepFn, InvA]
    have ha := load_attempts E s
    have hm : (load_code_node E s).max_attempts = s.max_attempts := by
      unfold load_code_node
      cases E.loadRes <;> rfl
    refine ⟨by rw [hm]; exact hmax, by rw [ha]; exact hle, ?_, ?_⟩
    · intro _
      rw [ha]
      exact h0 (Or.inl rfl)
    · intro hcon
      exact absurd hcon (by decide)
  | localize =>
    dsimp only [stepFn, InvA]
    have ha := localize_attempts E s
    have hm : (localize_defect_node E s).max_attempts = s.max_attempts := by
      simp only [localize_defect_node]
      cases get_function_context s.current_code (extract_error_line_number E.testOut0) <;> rfl
    refine ⟨by rw [hm]; exact hmax, by rw [ha]; exact hle, ?_, ?_⟩
    · intro hcon
      rcases hcon with hcon | hcon <;> exact absurd hcon (by decide)
    · intro _
      rw [ha, h0 (Or.inr rfl)]
      decide
  | generate =>
    dsimp only [stepFn, InvA]
    have hlt : s.attempts < 3 := hg rfl
    have ha := generate_attempts E s
    have hm : (generate_patch_node E s).max_attempts = s.max_attempts := by
      unfold generate_patch_node
      cases E.gemini s.attempts <;> rfl
    refine ⟨by rw [hm]; exact hmax, ?_, ?_, ?_⟩
    · rw [ha]
      cases (E.gemini s.attempts).isOk <;> simp <;> omega
    · intro hcon
      rcases hcon with hcon | hcon <;> exact absurd hcon (by decide)
    · intro hcon
      exact absurd hcon (by decide)
  | applyN =>
    dsimp only [stepFn, InvA]
    have ha := applyN_attempts E s
    have hm : (apply_patch_node E s).max_attempts = s.max_attempts := by
      unfold apply_patch_node
      cases E.applyRes s.attempts <;> rfl
    refine ⟨by rw [hm]; exact hmax, by rw [ha]; exact hle, ?_, ?_⟩
    · intro hcon
      rcases hcon with hcon | hcon <;> exact absurd hcon (by decide)
    · intro hcon
      exact absurd hcon (by decide)
  | validate =>
    dsimp only [stepFn, InvA]
    have ha : (validate_patch_node E s).attempts = s.attempts := rfl
    have hm : (validate_patch_node E s).max_attempts = s.max_attempts := rfl
    refine ⟨hmax, by rw [ha]; exact hle, ?_, ?_⟩
    · intro hcon
      rcases hcon with hcon | hcon <;>
        (cases hr : should_continue_repair (validate_patch_node E s) <;>
          rw [hr] at hcon <;> exact absurd hcon (by decide))
    · intro hcon
      cases hr : should_continue_repair (validate_patch_node E s) with
      | generate_patch =>
        unfold should_continue_repair at hr
        by_cases hc1 : (validate_patch_node E s).error_message ≠ []
        · rw [if_pos hc1] at hr
          exact absurd hr (by decide)
        · rw [if_neg hc1] at hr
          by_cases hc2 : (validate_patch_node E s).tests_passed = true
          · rw [if_pos hc2] at hr
            exact absurd hr (by decide)
          · rw [if_neg hc2] at hr
            by_cases hc3 : (validate_patch_node E s).attempts ≥ (validate_patch_node E s).max_attempts
            · rw [if_pos hc3] at hr
              exact absurd hr (by decide)
            · rw [ha]
              rw [ha, hm, hmax] at hc3
              omega
      | finish_success =>
        rw [hr] at hcon
        exact absurd hcon (by decide)
      | finish_failure =>
        rw [hr] at hcon
        exact absurd hcon (by decide)
  | succeedN =>
    dsimp only [stepFn, InvA]
    refine ⟨hmax, hle, ?_, ?_⟩
    · intro hcon
      rcases hcon with hcon | hcon <;> exact absurd hcon (by decide)
    · intro hcon
      exact absurd hcon (by decide)
  | failN =>
    dsimp only [stepFn, InvA]
    refine ⟨hmax, hle, ?_, ?_⟩
    · intro hcon
      rcases hcon with hcon | hcon <;> exact absurd hcon (by decide)
    · intro hcon
      exact absurd hcon (by decide)
  | done =>
    dsimp only [stepFn, InvA]
    refine ⟨hmax, hle, ?_, ?_⟩
    · intro hcon
      rcases hcon with hcon | hcon <;> exact absurd hcon (by decide)
    · intro hcon
      exact absurd hcon (by decide)

/-- The attempt-budget invariant holds along the whole run. -/
theorem invA_iter (E : Env) (m : Nat) (c : Node × APRState) (h : InvA c) :
    InvA (stepsN E m c) := by
  induction m generalizing c with
  | zero => exact h
  | succ k ih => exact ih _ (invA_step E c h)

/-- After Load and Localize in an all-successful environment the machine
sits at Generate with the diagnosis recorded and the attempt counter
still 0. -/
theorem firstTwoSteps (fp code t0 : Str) (g a t : Nat → Str) (fc : FunctionContext)
    (hfc : get_function_context code (extract_error_line_number t0) = Except.ok fc) :
    stepsN (mkEnv code t0 g a t) 2 (Node.load, initState fp)
      = (Node.generate,
         { file_path := fp, original_code := code, current_code := code,
           error_line_no := extract_error_line_number t0, patch_line := [],
           test_output := t0, tests_passed := testsPassed t0, attempts := 0,
           max_attempts := 3, success := false, error_message := [],
           function_context := some fc }) := by
  show stepFn (mkEnv code t0 g a t)
      (stepFn (mkEnv code t0 g a t) (Node.load, initState fp)) = _
  rw [show stepFn (mkEnv code t0 g a t) (Node.load, initState fp)
      = (Node.localize,
         { file_path := fp, original_code := code, current_code := code,
           error_line_no := 0, patch_line := [], test_output := [],
           tests_passed := false, attempts := 0, max_attempts := 3,
           success := false, error_message := [], function_context := none })
    from rfl]
  show (Node.generate, localize_defect_node (mkEnv code t0 g a t)
      { file_path := fp, original_code := code, current_code := code,
        error_line_no := 0, patch_line := [], test_output := [],
        tests_passed := false, attempts := 0, max_attempts := 3,
        success := false, error_message := [], function_context := none }) = _
  simp only [localize_defect_node, mkEnv]
  rw [hfc]

/-- Claim C2: with `max_attempts = 3`, an environment in which loading
and localization succeed, every LLM call and patch application
succeeds, and no generated patch makes the tests pass, the controller
reaches the Failure terminal state with `attempts = 3`, and in every
reachable state `attempts` never exceeds `max_attempts` (the
Generate-Apply-Validate loop runs at most 3 times). -/
theorem c2_bounded_failure (fp code t0 : Str) (g a t : Nat → Str) (fc : FunctionContext)
    (hfc : get_function_context code (extract_error_line_number t0) = Except.ok fc)
    (hfail : ∀ k, 1 ≤ k → k ≤ 3 → testsPassed (t k) = false) :
    (stepsN (mkEnv code t0 g a t) 11 (Node.load, initState fp)).1 = Node.failN ∧
    (stepsN (mkEnv code t0 g a t) 12 (Node.load, initState fp)).1 = Node.done ∧
    (stepsN (mkEnv code t0 g a t) 12 (Node.load, initState fp)).2.attempts = 3 ∧
    (stepsN (mkEnv code t0 g a t) 12 (Node.load, initState fp)).2.success = false ∧
    ∀ m, (stepsN (mkEnv code t0 g a t) m (Node.load, initState fp)).2.attempts ≤ 3 := by
  have h2 := firstTwoSteps fp code t0 g a t fc hfc
  have h5 : stepsN (mkEnv code t0 g a t) 5 (Node.load, initState fp)
      = (routeNode (should_continue_repair
          { file_path := fp, original_code := code, current_code := a 1,
            error_line_no := extract_error_line_number t0, patch_line := sanitize (g 0),
            test_output := t 1, tests_passed := testsPassed (t 1), attempts := 1,
            max_attempts := 3, success := false, error_message := [],
            function_context := some fc }),
         { file_path := fp, original_code := code, current_code := a 1,
           error_line_no := extract_error_line_number t0, patch_line := sanitize (g 0),
           test_output := t 1, tests_passed := testsPassed (t 1), attempts := 1,
           max_attempts := 3, success := false, error_message := [],
           function_context := some fc }) := by
    rw [show (5 : Nat) = 3 + 2 from rfl, stepsN_add, h2]
    exact loop3 code t0 g a t _
  have hr1 : should_continue_repair
      { file_path := fp, original_code := code, current_code := a 1,
        error_line_no := extract_error_line_number t0, patch_line := sanitize (g 0),
        test_output := t 1, tests_passed := testsPassed (t 1), attempts := 1,
        max_attempts := 3, success := false, error_message := [],
        function_context := some fc } = Route.generate_patch := by
    have ht : testsPassed (t 1) = false := hfail 1 (by omega) (by omega)
    simp [should_continue_repair, ht]
  have h8 : stepsN (mkEnv code t0 g a t) 8 (Node.load, initState fp)
      = (routeNode (should_continue_repair
          { file_path := fp, original_code := code, current_code := a 2,
            error_line_no := extract_error_line_number t0, patch_line := sanitize (g 1),
            test_output := t 2, tests_passed := testsPassed (t 2), attempts := 2,
            max_attempts := 3, success := false, error_message := [],
            function_context := some fc }),
         { file_path := fp, original_code := code, current_code := a 2,
           error_line_no := extract_error_line_number t0, patch_line := sanitize (g 1),
           test_output := t 2, tests_passed := testsPassed (t 2), attempts := 2,
           max_attempts := 3, success := false, error_message := [],
           function_context := some fc }) := by
    rw [show (8 : Nat) = 3 + 5 from rfl, stepsN_add, h5, hr1]
    exact loop3 code t0 g a t _
  have hr2 : should_continue_repair
      { file_path := fp, original_code := code, current_code := a 2,
        error_line_no := extract_error_line_number t0, patch_line := sanitize (g 1),
        test_output := t 2, tests_passed := testsPassed (t 2), attempts := 2,
        max_attempts := 3, success := false, error_message := [],
        function_context := some fc } = Route.generate_patch := by
    have ht : testsPassed (t 2) = false := hfail 2 (by omega) (by omega)
    simp [should_continue_repair, ht]
  have h11 : stepsN (mkEnv code t0 g a t) 11 (Node.load, initState fp)
      = (routeNode (should_continue_repair
          { file_path := fp, original_code := code, current_code := a 3,
            error_line_no := extract_error_line_number t0, patch_line := sanitize (g 2),
            test_output := t 3, tests_passed := testsPassed (t 3), attempts := 3,
            max_attempts := 3, success := false, error_message := [],
            function_context := some fc }),
         { file_path := fp, original_code := code, current_code := a 3,
           error_line_no := extract_error_line_number t0, patch_line := sanitize (g 2),
           test_output := t 3, tests_passed := testsPassed (t 3), attempts := 3,
           max_attempts := 3, success := false, error_message := [],
           function_context := some fc }) := by
    rw [show (11 : Nat) = 3 + 8 from rfl, stepsN_add, h8, hr2]
    exact loop3 code t0 g a t _
  have hr3 : should_continue_repair
      { file_path := fp, original_code := code, current_code := a 3,
        error_line_no := extract_error_line_number t0, patch_line := sanitize (g 2),
        test_output := t 3, tests_passed := testsPassed (t 3), attempts := 3,
        max_attempts := 3, success := false, error_message := [],
        function_context := some fc } = Route.finish_failure := by
    have ht : testsPassed (t 3) = false := hfail 3 (by omega) (by omega)
    simp [should_continue_repair, ht]
  have h12 : stepsN (mkEnv code t0 g a t) 12 (Node.load, initState fp)
      = (Node.done, finish_failure_node
          { file_path := fp, original_code := code, current_code := a 3,
            error_line_no := extract_error_line_number t0, patch_line := sanitize (g 2),
            test_output := t 3, tests_passed := testsPassed (t 3), attempts := 3,
            max_attempts := 3, success := false, error_message := [],
            function_context := some fc }) := by
    rw [show (12 : Nat) = 1 + 11 from rfl, stepsN_add, h11, hr3]
    rfl
  refine ⟨?_, ?_, ?_, ?_, ?_⟩
  · rw [h11]
    show routeNode (should_continue_repair _) = Node.failN
    rw [hr3]
    rfl
  · rw [h12]
  · rw [h12]
    rfl
  · rw [h12]
    rfl
  · intro m
    have hInv : InvA (Node.load, initState fp) := by
      refine ⟨rfl, ?_, fun _ => rfl, fun hcon => absurd hcon ?_⟩
      · show (0 : Nat) ≤ 3
        decide
      · show ¬(Node.load = Node.generate)
        decide
    exact (invA_iter (mkEnv code t0 g a t) m (Node.load, initState fp) hInv).2.1

/-- Witness for C2: a concrete run (two-line program, always-failing
tests) exhausts the three attempts and fails. -/
theorem c2_bounded_failure_witness :
    (stepsN (mkEnv codeW t0W gW aW tFailW) 11 (Node.load, initState ("gcd.py").data)).1 = Node.failN ∧
    (stepsN (mkEnv codeW t0W gW aW tFailW) 12 (Node.load, initState ("gcd.py").data)).1 = Node.done ∧
    (stepsN (mkEnv codeW t0W gW aW tFailW) 12 (Node.load, initState ("gcd.py").data)).2.attempts = 3 ∧
    (stepsN (mkEnv codeW t0W gW aW tFailW) 12 (Node.load, initState ("gcd.py").data)).2.success = false ∧
    ∀ m, (stepsN (mkEnv codeW t0W gW aW tFailW) m (Node.load, initState ("gcd.py").data)).2.attempts ≤ 3 :=
  c2_bounded_failure (("gcd.py").data) codeW t0W gW aW tFailW fcW (by decide)
    (fun _ _ _ => by
      show testsPassed ("FAIL: expected 2").data = false
      decide)

/-- Claim C3: in an environment in which loading and localization
succeed, the first LLM call and patch application succeed, and the
first validation output contains neither `FAIL` nor `ERROR`, the
controller reaches the Success terminal state with `attempts = 1` and
`success = true`. -/
theorem c3_first_patch_success (fp code t0 : Str) (g a t : Nat → Str) (fc : FunctionContext)
    (hfc : get_function_context code (extract_error_line_number t0) = Except.ok fc)
    (hpass : testsPassed (t 1) = true) :
    (stepsN (mkEnv code t0 g a t) 5 (Node.load, initState fp)).1 = Node.succeedN ∧
    (stepsN (mkEnv code t0 g a t) 6 (Node.load, initState fp)).1 = Node.done ∧
    (stepsN (mkEnv code t0 g a t) 6 (Node.load, initState fp)).2.attempts = 1 ∧
    (stepsN (mkEnv code t0 g a t) 6 (Node.load, initState fp)).2.success = true := by
  have h2 := firstTwoSteps fp code t0 g a t fc hfc
  have h5 : stepsN (mkEnv code t0 g a t) 5 (Node.load, initState fp)
      = (routeNode (should_continue_repair
          { file_path := fp, original_code := code, current_code := a 1,
            error_line_no := extract_error_line_number t0, patch_line := sanitize (g 0),
            test_output := t 1, tests_passed := testsPassed (t 1), attempts := 1,
            max_attempts := 3, success := false, error_message := [],
            function_context := some fc }),
         { file_path := fp, original_code := code, current_code := a 1,
           error_line_no := extract_error_line_number t0, patch_line := sanitize (g 0),
           test_output := t 1, tests_passed := testsPassed (t 1), attempts := 1,
           max_attempts := 3, success := false, error_message := [],
           function_context := some fc }) := by
    rw [show (5 : Nat) = 3 + 2 from rfl, stepsN_add, h2]
    exact loop3 code t0 g a t _
  have hr : should_continue_repair
      { file_path := fp, original_code := code, current_code := a 1,
        error_line_no := extract_error_line_number t0, patch_line := sanitize (g 0),
        test_output := t 1, tests_passed := testsPassed (t 1), attempts := 1,
        max_attempts := 3, success := false, error_message := [],
        function_context := some fc } = Route.finish_success := by
    simp [should_continue_repair, hpass]
  have h6 : stepsN (mkEnv code t0 g a t) 6 (Node.load, initState fp)
      = (Node.done, finish_success_node
          { file_path := fp, original_code := code, current_code := a 1,
            error_line_no := extract_error_line_number t0, patch_line := sanitize (g 0),
            test_output := t 1, tests_passed := testsPassed (t 1), attempts := 1,
            max_attempts := 3, success := false, error_message := [],
            function_context := some fc }) := by
    rw [show (6 : Nat) = 1 + 5 from rfl, stepsN_add, h5, hr]
    rfl
  refine ⟨?_, ?_, ?_, ?_⟩
  · rw [h5]
    show routeNode (should_continue_repair _) = Node.succeedN
    rw [hr]
    rfl
  · rw [h6]
  · rw [h6]
    rfl
  · rw [h6]
    rfl

/-- Witness for C3: a concrete run whose first patch makes the tests
pass succeeds after one attempt. -/
theorem c3_first_patch_success_witness :
    (stepsN (mkEnv codeW t0W gW aW tPassW) 5 (Node.load, initState ("gcd.py").data)).1 = Node.succeedN ∧
    (stepsN (mkEnv codeW t0W gW aW tPassW) 6 (Node.load, initState ("gcd.py").data)).1 = Node.done ∧
    (stepsN (mkEnv codeW t0W gW aW tPassW) 6 (Node.load, initState ("gcd.py").data)).2.attempts = 1 ∧
    (stepsN (mkEnv codeW t0W gW aW tPassW) 6 (Node.load, initState ("gcd.py").data)).2.success = true :=
  c3_first_patch_success (("gcd.py").data) codeW t0W gW aW tPassW fcW (by decide)
    (by
      show testsPassed ("All 5 tests passed").data = true
      decide)

/-- Claim C1, amended: when loading fails, `error_message` is set and
stays nonempty, and the run does terminate in Failure — but the
unconditional graph edges still execute Localize, Generate, Apply and
Validate once each before the routing check after Validate, and
`attempts` ends at 1 when the LLM call succeeds (0 only when it also
fails).  (The claimed direct short-circuit with `attempts = 0` is
refuted by the counterexample.) -/
theorem c1_amended (E : Env) (fp e : Str) (hload : E.loadRes = Except.error e) :
    (stepsN E 1 (Node.load, initState fp)).1 = Node.localize ∧
    (stepsN E 2 (Node.load, initState fp)).1 = Node.generate ∧
    (stepsN E 3 (Node.load, initState fp)).1 = Node.applyN ∧
    (stepsN E 4 (Node.load, initState fp)).1 = Node.validate ∧
    (stepsN E 5 (Node.load, initState fp)).1 = Node.failN ∧
    (stepsN E 6 (Node.load, initState fp)).1 = Node.done ∧
    (stepsN E 6 (Node.load, initState fp)).2.success = false ∧
    (stepsN E 6 (Node.load, initState fp)).2.error_message ≠ [] ∧
    (stepsN E 6 (Node.load, initState fp)).2.attempts
      = (if (E.gemini 0).isOk then 1 else 0) := by
  have hs1 : load_code_node E (initState fp)
      = { file_path := fp, original_code := [], current_code := [],
          error_line_no := 0, patch_line := [], test_output := [],
          tests_passed := false, attempts := 0, max_attempts := 3,
          success := false,
          error_message := ("Failed to load code: ").data ++ e,
          function_context := none } := by
    unfold load_code_node
    rw [hload]
    rfl
  have e1 : stepsN E 1 (Node.load, initState fp)
      = (Node.localize, load_code_node E (initState fp)) := rfl
  have e2 : stepsN E 2 (Node.load, initState fp)
      = (Node.generate, localize_defect_node E (load_code_node E (initState fp))) := rfl
  have e3 : stepsN E 3 (Node.load, initState fp)
      = (Node.applyN, generate_patch_node E
          (localize_defect_node E (load_code_node E (initState fp)))) := rfl
  have e4 : stepsN E 4 (Node.load, initState fp)
      = (Node.validate, apply_patch_node E (generate_patch_node E
          (localize_defect_node E (load_code_node E (initState fp))))) := rfl
  have herr1 : (load_code_node E (initState fp)).error_message ≠ [] := by
    rw [hs1]
    simp
  have herr2 := localize_err E _ herr1
  have herr3 := generate_err E _ herr2
  have herr4 := applyN_err E _ herr3
  have herr5 : (validate_patch_node E (apply_patch_node E (generate_patch_node E
      (localize_defect_node E (load_code_node E (initState fp)))))).error_message ≠ [] :=
    herr4
  have hroute : should_continue_repair (validate_patch_node E (apply_patch_node E
      (generate_patch_node E (localize_defect_node E (load_code_node E (initState fp))))))
      = Route.finish_failure := by
    unfold should_continue_repair
    rw [if_pos herr5]
  have e5 : stepsN E 5 (Node.load, initState fp)
      = (routeNode (should_continue_repair (validate_patch_node E (apply_patch_node E
          (generate_patch_node E (localize_defect_node E (load_code_node E (initState fp))))))),
         validate_patch_node E (apply_patch_node E (generate_patch_node E
          (localize_defect_node E (load_code_node E (initState fp)))))) := rfl
  have e6 : stepsN E 6 (Node.load, initState fp)
      = (Node.done, finish_failure_node (validate_patch_node E (apply_patch_node E
          (generate_patch_node E (localize_defect_node E (load_code_node E (initState fp))))))) := by
    rw [show (6 : Nat) = 1 + 5 from rfl, stepsN_add, e5, hroute]
    rfl
  have hatt : (finish_failure_node (validate_patch_node E (apply_patch_node E
      (generate_patch_node E (localize_defect_node E (load_code_node E (initState fp))))))).attempts
      = (if (E.gemini 0).isOk then 1 else 0) := by
    show (validate_patch_node E (apply_patch_node E (generate_patch_node E
      (localize_defect_node E (load_code_node E (initState fp)))))).attempts = _
    show (apply_patch_node E (generate_patch_node E
      (localize_defect_node E (load_code_node E (initState fp))))).attempts = _
    rw [applyN_attempts, generate_attempts, localize_attempts]
    rw [show (load_code_node E (initState fp)).attempts = 0 from by rw [hs1]]
    rw [Nat.zero_add]
  refine ⟨rfl, rfl, rfl, rfl, ?_, ?_, ?_, ?_, ?_⟩
  · rw [e5]
    show routeNode (should_continue_repair _) = Node.failN
    rw [hroute]
    rfl
  · rw [e6]
  · rw [e6]
    rfl
  · rw [e6]
    show (validate_patch_node E (apply_patch_node E (generate_patch_node E
      (localize_defect_node E (load_code_node E (initState fp)))))).error_message ≠ []
    exact herr5
  · rw [e6]
    exact hatt

/-- Witness for the amended C1: in the concrete failing-load
environment `envC1` the run walks through every node and ends in
Failure with one attempt consumed. -/
theorem c1_amended_witness :
    (stepsN envC1 1 (Node.load, initState ("gcd.py").data)).1 = Node.localize ∧
    (stepsN envC1 2 (Node.load, initState ("gcd.py").data)).1 = Node.generate ∧
    (stepsN envC1 3 (Node.load, initState ("gcd.py").data)).1 = Node.applyN ∧
    (stepsN envC1 4 (Node.load, initState ("gcd.py").data)).1 = Node.validate ∧
    (stepsN envC1 5 (Node.load, initState ("gcd.py").data)).1 = Node.failN ∧
    (stepsN envC1 6 (Node.load, initState ("gcd.py").data)).1 = Node.done ∧
    (stepsN envC1 6 (Node.load, initState ("gcd.py").data)).2.success = false ∧
    (stepsN envC1 6 (Node.load, initState ("gcd.py").data)).2.error_message ≠ [] ∧
    (stepsN envC1 6 (Node.load, initState ("gcd.py").data)).2.attempts
      = (if (envC1.gemini 0).isOk then 1 else 0) :=
  c1_amended envC1 (("gcd.py").data)
    (("Could not find file: python_programs/gcd.py").data) rfl
